import Mathlib

/-!
Shallow embedding of the IFIXDOCS backend (FastAPI routes under
`backend/api/routes/`) together with proofs about the properties stated in
its specification.  Python strings are modelled as `List Char` (`Str`),
Python dicts as insertion-ordered association lists, timestamps as integers
and route handlers as functions into an explicit `RouteResult`.
-/

/-- Python strings, modelled as lists of characters. -/
abbrev Str := List Char

/-- Insertion-ordered association-list model of a Python `dict` lookup
(`m.get(k)` / `m[k]`). -/
def pyGet {κ α : Type} [DecidableEq κ] : List (κ × α) → κ → Option α
  | [], _ => none
  | (k', v') :: rest, k => if k' = k then some v' else pyGet rest k

/-- `m[k] = v` on a Python dict: overwrite in place if the key exists
(keeping its position), otherwise append at the end. -/
def pySet {κ α : Type} [DecidableEq κ] : List (κ × α) → κ → α → List (κ × α)
  | [], k, v => [(k, v)]
  | (k', v') :: rest, k, v =>
    if k' = k then (k, v) :: rest else (k', v') :: pySet rest k v

/-- `del m[k]` on a Python dict. -/
def pyDel {κ α : Type} [DecidableEq κ] : List (κ × α) → κ → List (κ × α)
  | [], _ => []
  | (k', v') :: rest, k => if k' = k then rest else (k', v') :: pyDel rest k

/-- `k in m` on a Python dict. -/
def pyContains {κ α : Type} [DecidableEq κ] (m : List (κ × α)) (k : κ) : Bool :=
  (pyGet m k).isSome

theorem pyGet_pySet_self {κ α : Type} [DecidableEq κ]
    (m : List (κ × α)) (k : κ) (v : α) : pyGet (pySet m k v) k = some v := by
  induction m with
  | nil => simp [pySet, pyGet]
  | cons hd tl ih =>
    obtain ⟨k', v'⟩ := hd
    by_cases h : k' = k <;> simp [pySet, pyGet, h, ih]

/-! ## Document store (`backend/api/routes/docs.py`) -/

/-- Pydantic model `Document` from `docs.py`.  `datetime` fields are
modelled as abstract `Nat` timestamps. -/
structure Document where
  doc_id : String
  title : String
  content : String
  content_type : String
  language : String
  tags : List String
  created_at : Nat
  updated_at : Nat
  author : String
  version : String
  status : String
deriving DecidableEq, Repr

/-- Pydantic model `CreateDocumentRequest` from `docs.py`. -/
structure CreateDocumentRequest where
  title : String
  content : String
  content_type : String := "markdown"
  language : String := "en"
  tags : List String := []
  author : String := "anonymous"
  version : String := "1.0.0"
deriving DecidableEq, Repr

/-- Pydantic model `UpdateDocumentRequest` from `docs.py`: every field is
optional. -/
structure UpdateDocumentRequest where
  title : Option String := none
  content : Option String := none
  tags : Option (List String) := none
  version : Option String := none
  status : Option String := none
deriving DecidableEq, Repr

/-- Mutable state of the `DocumentManager` singleton (its `templates`
field is static data never touched by the CRUD operations and is
omitted). -/
structure DocumentManager where
  documents : List (String × Document) := []
  doc_counter : Nat := 0
deriving DecidableEq, Repr

/-- `DocumentManager.create_document`: bump the counter, build the id
`doc_<counter>`, store and return the new document (`now` stands for
`datetime.now()`). -/
def DocumentManager.create_document (st : DocumentManager)
    (request : CreateDocumentRequest) (now : Nat) : DocumentManager × Document :=
  let counter := st.doc_counter + 1
  let doc_id := "doc_" ++ toString counter
  let document : Document :=
    { doc_id := doc_id
      title := request.title
      content := request.content
      content_type := request.content_type
      language := request.language
      tags := request.tags
      created_at := now
      updated_at := now
      author := request.author
      version := request.version
      status := "draft" }
  ({ st with
      doc_counter := counter
      documents := pySet st.documents doc_id document }, document)

/-- `DocumentManager.get_document`: `self.documents.get(doc_id)`. -/
def DocumentManager.get_document (st : DocumentManager) (doc_id : String) :
    Option Document :=
  pyGet st.documents doc_id

/-- `DocumentManager.update_document`: overwrite exactly the request
fields that are not `None`, then set `updated_at` (`now` stands for
`datetime.now()`). -/
def DocumentManager.update_document (st : DocumentManager) (doc_id : String)
    (request : UpdateDocumentRequest) (now : Nat) :
    DocumentManager × Option Document :=
  match pyGet st.documents doc_id with
  | none => (st, none)
  | some document =>
    let document :=
      { document with
          title := request.title.getD document.title
          content := request.content.getD document.content
          tags := request.tags.getD document.tags
          version := request.version.getD document.version
          status := request.status.getD document.status
          updated_at := now }
    ({ st with documents := pySet st.documents doc_id document }, some document)

/-- `DocumentManager.delete_document`. -/
def DocumentManager.delete_document (st : DocumentManager) (doc_id : String) :
    DocumentManager × Bool :=
  if pyContains st.documents doc_id then
    ({ st with documents := pyDel st.documents doc_id }, true)
  else (st, false)

/-- Outcome of a FastAPI route handler. -/
inductive RouteResult (α : Type) where
  | ok (value : α)
  | httpError (status : Nat) (detail : String)
deriving DecidableEq, Repr

/-- Route `GET /{doc_id}` from `docs.py`.  The handler raises
`HTTPException(404)` inside a `try` block whose `except Exception` clause
catches that very exception (FastAPI's `HTTPException` subclasses
`Exception`) and replaces it with `HTTPException(500, "Failed to get
document")`. -/
def get_document_route (st : DocumentManager) (doc_id : String) :
    RouteResult Document :=
  let tryBlock : Except (Nat × String) Document :=
    match st.get_document doc_id with
    | some document => .ok document
    | none => .error (404, "Document not found")
  match tryBlock with
  | .ok document => .ok document
  | .error _ => .httpError 500 "Failed to get document"

/-- Canonical manager state obtained by the claims' concrete scenarios. -/
def emptyManager : DocumentManager := {}

/-- Claim C1: create → get round-trip.  For every manager state and every
`CreateDocumentRequest`, after `create_document` returns a document `d`,
`get_document d.doc_id` returns a document whose content, title, tags,
author and version are exactly the ones supplied in the request. -/
theorem create_then_get_roundtrip (st : DocumentManager)
    (request : CreateDocumentRequest) (now : Nat) :
    ((st.create_document request now).1).get_document
        ((st.create_document request now).2).doc_id =
      some (st.create_document request now).2 ∧
    ((st.create_document request now).2).content = request.content ∧
    ((st.create_document request now).2).title = request.title ∧
    ((st.create_document request now).2).tags = request.tags ∧
    ((st.create_document request now).2).author = request.author ∧
    ((st.create_document request now).2).version = request.version := by
  refine ⟨?_, rfl, rfl, rfl, rfl, rfl⟩
  simp [DocumentManager.create_document, DocumentManager.get_document,
    pyGet_pySet_self]

/-- Claim C2 (failing input): create `doc_1`, delete it, then get it again.
At the manager level `get_document` indeed returns `None`, but the HTTP
route reports status 500 "Failed to get document", not the 404 the
handler's own `raise HTTPException(status_code=404, ...)` intends: the
blanket `except Exception` catches the 404 and replaces it. -/
theorem deleted_doc_get_returns_500 :
    (let st := (emptyManager.create_document { title := "t", content := "c" } 0).1
     let st2 := (st.delete_document "doc_1").1
     st2.get_document "doc_1" = none ∧
       get_document_route st2 "doc_1" =
         .httpError 500 "Failed to get document" ∧
       get_document_route st2 "doc_1" ≠ .httpError 404 "Document not found") := by
  refine ⟨by decide, by decide, by decide⟩

/-- Claim C3: frame property of `update_document`.  Only fields present
(non-`None`) in the request change; `doc_id`, `content_type`, `language`,
`author` and `created_at` are never touched, and every optional field left
`None` keeps its previous value. -/
theorem update_document_frame (st : DocumentManager) (doc_id : String)
    (request : UpdateDocumentRequest) (now : Nat) (old : Document)
    (h : st.get_document doc_id = some old) :
    ∃ d', (st.update_document doc_id request now).2 = some d' ∧
      d'.doc_id = old.doc_id ∧
      d'.content_type = old.content_type ∧
      d'.language = old.language ∧
      d'.author = old.author ∧
      d'.created_at = old.created_at ∧
      (request.title = none → d'.title = old.title) ∧
      (request.content = none → d'.content = old.content) ∧
      (request.tags = none → d'.tags = old.tags) ∧
      (request.version = none → d'.version = old.version) ∧
      (request.status = none → d'.status = old.status) := by
  unfold DocumentManager.update_document
  rw [show pyGet st.documents doc_id = some old from h]
  refine ⟨_, rfl, rfl, rfl, rfl, rfl, rfl, ?_, ?_, ?_, ?_, ?_⟩ <;>
    intro hnone <;> simp [hnone]

/-- Witness for C3 at a concrete state: one stored document, an update
request that only sets the title. -/
theorem update_document_frame_witness :
    ∃ d', ((((emptyManager.create_document { title := "t", content := "c" } 0).1).update_document
        "doc_1" { title := some "t2" } 5).2) = some d' ∧
      d'.doc_id = ((emptyManager.create_document { title := "t", content := "c" } 0).2).doc_id ∧
      d'.content_type = ((emptyManager.create_document { title := "t", content := "c" } 0).2).content_type ∧
      d'.language = ((emptyManager.create_document { title := "t", content := "c" } 0).2).language ∧
      d'.author = ((emptyManager.create_document { title := "t", content := "c" } 0).2).author ∧
      d'.created_at = ((emptyManager.create_document { title := "t", content := "c" } 0).2).created_at ∧
      (({ title := some "t2" } : UpdateDocumentRequest).title = none →
        d'.title = ((emptyManager.create_document { title := "t", content := "c" } 0).2).title) ∧
      (({ title := some "t2" } : UpdateDocumentRequest).content = none →
        d'.content = ((emptyManager.create_document { title := "t", content := "c" } 0).2).content) ∧
      (({ title := some "t2" } : UpdateDocumentRequest).tags = none →
        d'.tags = ((emptyManager.create_document { title := "t", content := "c" } 0).2).tags) ∧
      (({ title := some "t2" } : UpdateDocumentRequest).version = none →
        d'.version = ((emptyManager.create_document { title := "t", content := "c" } 0).2).version) ∧
      (({ title := some "t2" } : UpdateDocumentRequest).status = none →
        d'.status = ((emptyManager.create_document { title := "t", content := "c" } 0).2).status) :=
  update_document_frame _ "doc_1" { title := some "t2" } 5 _ (by decide)

/-! ## Documentation drift detection (`backend/api/routes/maintenance.py`) -/

/-- Abstract file system: a finite map from paths to modification times
(`os.path.exists` / `os.path.getmtime`). -/
structure FileSystem where
  files : List (String × Int)
deriving DecidableEq, Repr

/-- `os.path.exists`. -/
def FileSystem.pathExists (fs : FileSystem) (p : String) : Bool :=
  (pyGet fs.files p).isSome

/-- `os.path.getmtime` (total; only ever used on existing paths). -/
def FileSystem.getmtime (fs : FileSystem) (p : String) : Int :=
  (pyGet fs.files p).getD 0

/-- `os.path.basename` (POSIX): the suffix after the last `/`. -/
def pybasename (p : String) : String :=
  ⟨(p.data.reverse.takeWhile (fun c => c ≠ '/')).reverse⟩

/-- `os.path.splitext(p)[0]`: drop the extension, which starts at the
last `.` of the basename provided some earlier character of the basename
is not a dot (so `.bashrc` has no extension). -/
def splitextRoot (p : String) : String :=
  let d := p.data
  let base := (d.reverse.takeWhile (fun c => c ≠ '/')).reverse
  let dir := d.take (d.length - base.length)
  if base.contains '.' then
    let afterRev := base.reverse.takeWhile (fun c => c ≠ '.')
    let before := base.take (base.length - afterRev.length - 1)
    if before.any (fun c => c ≠ '.') then ⟨dir ++ before⟩ else p
  else p

/-- The candidate documentation paths probed by
`DocDriftDetector._find_corresponding_doc`, in order. -/
def possibleDocs (code_file : String) : List String :=
  let base := splitextRoot code_file
  [base ++ ".md", base ++ ".rst", base ++ ".txt", "README.md",
   "docs/" ++ pybasename base ++ ".md"]

/-- `DocDriftDetector._find_corresponding_doc`: the first candidate that
exists, if any. -/
def findCorrespondingDoc (fs : FileSystem) (code_file : String) :
    Option String :=
  (possibleDocs code_file).find? fs.pathExists

/-- `DocDriftDetector._is_doc_outdated`: the doc is more than 24 hours
(86400 seconds) older than the code. -/
def isDocOutdated (fs : FileSystem) (code_file doc_file : String) : Bool :=
  decide (fs.getmtime code_file - fs.getmtime doc_file > 86400)

/-- One element of the `drifted_files` list built by `detect_drift`. -/
structure DriftEntry where
  file_path : String
  doc_file : Option String
  drift_type : String
  severity : String
  last_modified : Int
deriving DecidableEq, Repr

/-- The per-code-file body of the `detect_drift` loop: skip missing code
files; if a corresponding doc exists, emit an `outdated` entry when it is
stale; otherwise emit a `missing` entry. -/
def driftEntryFor (fs : FileSystem) (code_file : String) : Option DriftEntry :=
  if fs.pathExists code_file then
    match findCorrespondingDoc fs code_file with
    | some doc_file =>
      if fs.pathExists doc_file then
        if isDocOutdated fs code_file doc_file then
          some { file_path := code_file, doc_file := some doc_file,
                 drift_type := "outdated", severity := "high",
                 last_modified := fs.getmtime code_file }
        else none
      else
        some { file_path := code_file, doc_file := none,
               drift_type := "missing", severity := "medium",
               last_modified := fs.getmtime code_file }
    | none =>
      some { file_path := code_file, doc_file := none,
             drift_type := "missing", severity := "medium",
             last_modified := fs.getmtime code_file }
  else none

/-- Result of `DocDriftDetector.detect_drift` (the hash bookkeeping on
`self.code_hashes` / `self.doc_hashes` does not influence the result and
is omitted; `drift_score` is the float ratio of the two fields below). -/
structure DriftReport where
  total_files : Nat
  drifted_files : List DriftEntry
deriving DecidableEq, Repr

/-- `DocDriftDetector.detect_drift`. -/
def detect_drift (fs : FileSystem) (code_files doc_files : List String) :
    DriftReport :=
  { total_files := code_files.length + doc_files.length
    drifted_files := code_files.filterMap (driftEntryFor fs) }

/-- Claim C6 (counterexample): code file `a.py` exists and none of its
sibling documentation files (`a.md`, `a.rst`, `a.txt`) exists, yet
`detect_drift` emits no `missing` entry at all, because an unrelated
fresh `README.md` is accepted as the corresponding documentation. -/
theorem missing_doc_counterexample :
    (let fs : FileSystem := ⟨[("a.py", 1000), ("README.md", 1000)]⟩
     fs.pathExists "a.py" = true ∧
       fs.pathExists "a.md" = false ∧
       fs.pathExists "a.rst" = false ∧
       fs.pathExists "a.txt" = false ∧
       (detect_drift fs ["a.py"] []).drifted_files = []) := by
  refine ⟨by decide, by decide, by decide, by decide, by decide⟩

/-- Claim C6 (amended): for every existing code file none of whose
candidate documentation paths (`<base>.md`, `<base>.rst`, `<base>.txt`,
`README.md`, `docs/<basename>.md`) exists, `detect_drift` emits a
`missing` entry for that file. -/
theorem missing_doc_detected (fs : FileSystem)
    (code_files doc_files : List String) (f : String)
    (hmem : f ∈ code_files) (hex : fs.pathExists f = true)
    (hnodoc : ∀ d ∈ possibleDocs f, fs.pathExists d = false) :
    { file_path := f, doc_file := none, drift_type := "missing",
      severity := "medium", last_modified := fs.getmtime f : DriftEntry } ∈
      (detect_drift fs code_files doc_files).drifted_files := by
  have hfind : findCorrespondingDoc fs f = none := by
    unfold findCorrespondingDoc
    rw [List.find?_eq_none]
    intro d hd
    simp [hnodoc d hd]
  refine List.mem_filterMap.mpr ⟨f, hmem, ?_⟩
  unfold driftEntryFor
  rw [hex, hfind]
  simp

/-- Witness for C6 (amended): a file system holding only `a.py`. -/
theorem missing_doc_detected_witness :
    { file_path := "a.py", doc_file := none, drift_type := "missing",
      severity := "medium",
      last_modified := FileSystem.getmtime ⟨[("a.py", 1000)]⟩ "a.py" : DriftEntry } ∈
      (detect_drift ⟨[("a.py", 1000)]⟩ ["a.py"] []).drifted_files :=
  missing_doc_detected ⟨[("a.py", 1000)]⟩ ["a.py"] [] "a.py"
    (by decide) (by decide) (by decide)

/-- Claim C7: for every existing code file whose corresponding
documentation file (as found by `_find_corresponding_doc`) is more than
86400 seconds older than the code file, `detect_drift` emits an
`outdated` entry for that file. -/
theorem outdated_doc_detected (fs : FileSystem)
    (code_files doc_files : List String) (f doc : String)
    (hmem : f ∈ code_files) (hex : fs.pathExists f = true)
    (hdoc : findCorrespondingDoc fs f = some doc)
    (hold : fs.getmtime f - fs.getmtime doc > 86400) :
    { file_path := f, doc_file := some doc, drift_type := "outdated",
      severity := "high", last_modified := fs.getmtime f : DriftEntry } ∈
      (detect_drift fs code_files doc_files).drifted_files := by
  have hdocex : fs.pathExists doc = true := by
    have := List.find?_some hdoc
    exact this
  refine List.mem_filterMap.mpr ⟨f, hmem, ?_⟩
  unfold driftEntryFor
  rw [hex, hdoc]
  simp [hdocex, isDocOutdated, hold]

/-- Witness for C7: `a.py` is two days newer than its sibling `a.md`. -/
theorem outdated_doc_detected_witness :
    { file_path := "a.py", doc_file := some "a.md", drift_type := "outdated",
      severity := "high",
      last_modified := FileSystem.getmtime ⟨[("a.py", 200000), ("a.md", 0)]⟩ "a.py" : DriftEntry } ∈
      (detect_drift ⟨[("a.py", 200000), ("a.md", 0)]⟩ ["a.py"] ["a.md"]).drifted_files :=
  outdated_doc_detected ⟨[("a.py", 200000), ("a.md", 0)]⟩ ["a.py"] ["a.md"]
    "a.py" "a.md" (by decide) (by decide) (by decide) (by decide)

/-! ## String primitives shared by the summarization and translation
models.  They mirror the Python `str` methods used by the source. -/

/-- The whitespace characters recognised by Python's `str.strip()` /
`str.split()`. -/
def isPyWS (c : Char) : Bool :=
  c = ' ' || c = '\t' || c = '\n' || c = '\r' || c = '\x0b' || c = '\x0c'

/-- Python `str.strip()`. -/
def pystrip (s : Str) : Str :=
  ((s.dropWhile isPyWS).reverse.dropWhile isPyWS).reverse

/-- Python `str.split('.')`: every `.` separates, empty pieces are kept.
(The recursive call never returns `[]`, so `headD`/`tail` just prepend the
current character to the first piece.) -/
def pysplitDot : Str → List Str
  | [] => [[]]
  | c :: rest =>
    if c = '.' then [] :: pysplitDot rest
    else (c :: (pysplitDot rest).headD []) :: (pysplitDot rest).tail

/-- Worker for `pysplitWs`, accumulating the current word reversed. -/
def pysplitWsAux : Str → Str → List Str
  | cur, [] => if cur.isEmpty then [] else [cur.reverse]
  | cur, c :: rest =>
    if isPyWS c then
      if cur.isEmpty then pysplitWsAux [] rest
      else cur.reverse :: pysplitWsAux [] rest
    else pysplitWsAux (c :: cur) rest

/-- Python `str.split()` with no argument: split on whitespace runs,
dropping empty pieces. -/
def pysplitWs (s : Str) : List Str := pysplitWsAux [] s

/-- `len(s.split())`. -/
def wordCount (s : Str) : Nat := (pysplitWs s).length

/-- Python `'. '.join(l)`. -/
def joinDotSpace : List Str → Str
  | [] => []
  | [x] => x
  | x :: y :: xs => x ++ '.' :: ' ' :: joinDotSpace (y :: xs)

/-- Python `' '.join(l)`. -/
def joinSpace : List Str → Str
  | [] => []
  | [x] => x
  | x :: y :: xs => x ++ ' ' :: joinSpace (y :: xs)

/-- `needle` is a prefix of `hay` (character-exact). -/
def startsWithStr : Str → Str → Bool
  | [], _ => true
  | _ :: _, [] => false
  | a :: ns, b :: hs => a = b && startsWithStr ns hs

/-- Python `needle in hay` substring test. -/
def containsSubstr (needle : Str) : Str → Bool
  | [] => needle.isEmpty
  | c :: rest => startsWithStr needle (c :: rest) || containsSubstr needle rest

/-- `s.lower()` (ASCII case folding, which is all the embedded patterns
need). -/
def lowerStr (s : Str) : Str := s.map Char.toLower

/-! ## Summarization fallback (`backend/api/routes/ai.py`,
`HuggingFaceClient._fallback_summary`) -/

/-- The key-phrase markers scanned for by `_fallback_summary`. -/
def summaryKeywords : List Str :=
  ["important".data, "key".data, "main".data, "primary".data,
   "essential".data, "critical".data]

/-- `any(keyword in sentence.lower() for keyword in [...])`. -/
def hasKeyword (s : Str) : Bool :=
  summaryKeywords.any (fun k => containsSubstr k (lowerStr s))

/-- The list comprehension `[s.strip() for s in l if s.strip()]`. -/
def cleanList (l : List Str) : List Str :=
  (l.filter (fun s => !(pystrip s).isEmpty)).map pystrip

/-- Number of sentences initially selected for each `summary_type`. -/
def summaryWindow (summary_type : String) : Nat :=
  if summary_type = "brief" then 2
  else if summary_type = "comprehensive" then 4
  else if summary_type = "detailed" then 6
  else 4

/-- The `key_phrases` list built from the first eight sentences. -/
def keyPhrases (sentences : List Str) : List Str :=
  ((sentences.take 8).filter hasKeyword).map pystrip

/-- The `summary_sentences` list right before joining: the cleaned window
plus (for texts of more than ten sentences) up to two key phrases. -/
def selectedSentences (text : String) (summary_type : String) : List Str :=
  if 10 < (pysplitDot text.data).length then
    if !(keyPhrases (pysplitDot text.data)).isEmpty then
      cleanList ((pysplitDot text.data).take (summaryWindow summary_type)) ++
        (keyPhrases (pysplitDot text.data)).take 2
    else cleanList ((pysplitDot text.data).take (summaryWindow summary_type))
  else cleanList ((pysplitDot text.data).take (summaryWindow summary_type))

/-- `'. '.join(summary_sentences) + '.'`. -/
def joinedSummary (text : String) (summary_type : String) : Str :=
  joinDotSpace (selectedSentences text summary_type) ++ ['.']

/-- `HuggingFaceClient._fallback_summary`: texts of at most three
`.`-segments are returned verbatim; otherwise the selected sentences are
joined, and two further sentences (`sentences[4:6]`) are appended when the
summary is still under thirty words. -/
def fallback_summary (text : String) (summary_type : String) : String :=
  if (pysplitDot text.data).length ≤ 3 then text
  else if wordCount (joinedSummary text summary_type) < 30 then
    ⟨joinedSummary text summary_type ++
      ' ' :: (joinDotSpace (cleanList (((pysplitDot text.data).drop 4).take 2)) ++ ['.'])⟩
  else ⟨joinedSummary text summary_type⟩

/-- Number of (nonempty, stripped) `.`-separated sentences of a string. -/
def sentenceCountStr (s : String) : Nat :=
  (cleanList (pysplitDot s.data)).length

/-- Claim C8 (counterexample): on the four-sentence input `a.b.c.d` with
`summary_type = "comprehensive"`, the fallback summary re-joins the
segments with `. ` and appends a trailing period, producing a string
strictly longer than the input. -/
theorem fallback_summary_lengthens :
    fallback_summary "a.b.c.d" "comprehensive" = "a. b. c. d. ." ∧
      ("a.b.c.d" : String).length <
        (fallback_summary "a.b.c.d" "comprehensive").length := by
  refine ⟨by decide, by decide⟩

/-- Claim C8 (amended): the monotone-shortening bound holds in the regime
where `_fallback_summary` does not re-punctuate, namely for every input of
at most three `.`-segments, which is returned verbatim (hence with equal
length); for longer inputs the `. `-rejoin plus trailing period can exceed
the input's length. -/
theorem fallback_summary_short_input_verbatim (text : String)
    (summary_type : String) (h : (pysplitDot text.data).length ≤ 3) :
    fallback_summary text summary_type = text := by
  unfold fallback_summary
  simp [h]

/-- Witness for the amended C8: a two-sentence input is returned
unchanged. -/
theorem fallback_summary_short_input_verbatim_witness :
    (pysplitDot ("x.y" : String).data).length ≤ 3 ∧
      fallback_summary "x.y" "brief" = "x.y" :=
  ⟨by decide, fallback_summary_short_input_verbatim "x.y" "brief" (by decide)⟩

/-- Claim C9 (counterexample): a seven-sentence text of eight-word
sentences.  The brief summary falls under the thirty-word threshold and
gets `sentences[4:6]` appended, ending up with the same number of
sentences (four) as the comprehensive summary, so "brief < comprehensive"
fails even though the text has more sentences than the largest selection
window. -/
theorem summary_sentence_count_counterexample :
    (let t : String := "a a a a a a a a.b b b b b b b b.c c c c c c c c.d d d d d d d d.e e e e e e e e.f f f f f f f f.g g g g g g g g"
     6 < (pysplitDot t.data).length ∧
       sentenceCountStr (fallback_summary t "brief") = 4 ∧
       sentenceCountStr (fallback_summary t "comprehensive") = 4 ∧
       ¬ sentenceCountStr (fallback_summary t "brief") <
           sentenceCountStr (fallback_summary t "comprehensive")) := by
  refine ⟨by decide, by decide, by decide, by decide⟩

/-! ### Lemmas about the string primitives, used for the sentence-count
analysis of `_fallback_summary`. -/

theorem pystrip_eq_rdropWhile (s : Str) :
    pystrip s = List.rdropWhile isPyWS (s.dropWhile isPyWS) := rfl

theorem dropWhile_rdropWhile_of_dropWhile_self {p : Char → Bool} (m : Str)
    (hm : List.dropWhile p m = m) :
    List.dropWhile p (List.rdropWhile p m) = List.rdropWhile p m := by
  rcases hr : List.rdropWhile p m with _ | ⟨a, u⟩
  · simp
  · obtain ⟨t, ht⟩ := hr ▸ List.rdropWhile_prefix p m
    rw [List.cons_append] at ht
    by_cases ha : p a
    · exfalso
      rw [← ht, List.dropWhile_cons_of_pos ha] at hm
      have hlen := congrArg List.length hm
      have hle : (List.dropWhile p (u ++ t)).length ≤ (u ++ t).length :=
        (List.dropWhile_suffix p).sublist.length_le
      rw [List.length_cons] at hlen
      omega
    · rw [List.dropWhile_cons_of_neg ha]

theorem pystrip_idem (s : Str) : pystrip (pystrip s) = pystrip s := by
  rw [pystrip_eq_rdropWhile s, pystrip_eq_rdropWhile]
  rw [dropWhile_rdropWhile_of_dropWhile_self _ (List.dropWhile_idempotent _ _)]
  exact List.rdropWhile_idempotent _ _

theorem pystrip_cons_ws (c : Char) (l : Str) (h : isPyWS c = true) :
    pystrip (c :: l) = pystrip l := by
  unfold pystrip
  rw [List.dropWhile_cons_of_pos h]

theorem mem_of_mem_pystrip {c : Char} {s : Str} (h : c ∈ pystrip s) : c ∈ s := by
  rw [pystrip_eq_rdropWhile] at h
  exact (List.dropWhile_suffix isPyWS).subset
    ((List.rdropWhile_prefix isPyWS _).subset h)

theorem pysplitDot_ne_nil (l : Str) : pysplitDot l ≠ [] := by
  cases l with
  | nil => simp [pysplitDot]
  | cons c rest =>
    by_cases h : c = '.' <;> simp [pysplitDot, h]

theorem pysplitDot_append_dot (x r : Str) (hx : '.' ∉ x) :
    pysplitDot (x ++ '.' :: r) = x :: pysplitDot r := by
  induction x with
  | nil => simp [pysplitDot]
  | cons c x' ih =>
    have hc : ¬ c = '.' := fun hcc => hx (by simp [hcc])
    have hx' : '.' ∉ x' := fun hmem => hx (List.mem_cons_of_mem _ hmem)
    simp only [List.cons_append, pysplitDot, if_neg hc, List.append_eq]
    rw [ih hx']
    simp

theorem not_dot_mem_pysplitDot (l : Str) : ∀ s ∈ pysplitDot l, '.' ∉ s := by
  induction l with
  | nil =>
    intro s hs
    simp [pysplitDot] at hs
    simp [hs]
  | cons c rest ih =>
    intro s hs
    by_cases h : c = '.'
    · simp only [pysplitDot, if_pos h, List.mem_cons] at hs
      rcases hs with rfl | hs
      · simp
      · exact ih s hs
    · simp only [pysplitDot, if_neg h, List.mem_cons] at hs
      rcases hs with rfl | hs
      · intro hdot
        rcases List.mem_cons.mp hdot with heq | hmem
        · exact h heq.symm
        · rcases hh : pysplitDot rest with _ | ⟨s0, ss⟩
          · exact pysplitDot_ne_nil rest hh
          · rw [hh] at hmem
            exact ih s0 (by simp [hh]) (by simpa using hmem)
      · rcases hh : pysplitDot rest with _ | ⟨s0, ss⟩
        · exact absurd hh (pysplitDot_ne_nil rest)
        · rw [hh] at hs
          exact ih s (by
            rw [hh]
            exact List.mem_cons_of_mem _ (by simpa using hs))

theorem cleanList_cons (a : Str) (l : List Str) :
    cleanList (a :: l) =
      if (pystrip a).isEmpty then cleanList l else pystrip a :: cleanList l := by
  unfold cleanList
  by_cases h : (pystrip a).isEmpty <;> simp [List.filter_cons, h]

/-- Splitting a summary string back into sentences: joining nonempty,
dot-free, already-stripped items with `. `, appending a final `.` and an
optional leading space, then splitting on `.` and cleaning, recovers
exactly the item list. -/
theorem cleanList_pysplitDot_join (items : List Str) :
    ∀ sp : Str, sp = [] ∨ sp = [' '] →
    (∀ i ∈ items, i ≠ [] ∧ '.' ∉ i ∧ pystrip i = i) →
    cleanList (pysplitDot (sp ++ joinDotSpace items ++ ['.'])) = items := by
  induction items with
  | nil =>
    intro sp hsp _
    rcases hsp with rfl | rfl <;> decide
  | cons x rest ih =>
    intro sp hsp hgood
    obtain ⟨hx_ne, hx_dot, hx_strip⟩ := hgood x (by simp)
    have hsp_strip : pystrip (sp ++ x) = x := by
      rcases hsp with rfl | rfl
      · simpa using hx_strip
      · simpa [pystrip_cons_ws ' ' x (by decide)] using hx_strip
    have hsp_dot : '.' ∉ sp ++ x := by
      intro hmem
      rcases List.mem_append.mp hmem with hmem | hmem
      · rcases hsp with rfl | rfl
        · simp at hmem
        · simp at hmem
      · exact hx_dot hmem
    cases rest with
    | nil =>
      have : sp ++ joinDotSpace [x] ++ ['.'] = (sp ++ x) ++ '.' :: [] := by
        simp [joinDotSpace]
      rw [this, pysplitDot_append_dot _ _ hsp_dot]
      rw [cleanList_cons]
      have hne : ¬ (pystrip (sp ++ x)).isEmpty := by
        rw [hsp_strip]
        simpa using hx_ne
      rw [if_neg hne, hsp_strip]
      have hnil : cleanList (pysplitDot []) = [] := by decide
      rw [hnil]
    | cons y rest' =>
      have hjoin : sp ++ joinDotSpace (x :: y :: rest') ++ ['.'] =
          (sp ++ x) ++ '.' :: ([' '] ++ joinDotSpace (y :: rest') ++ ['.']) := by
        simp [joinDotSpace]
      rw [hjoin, pysplitDot_append_dot _ _ hsp_dot]
      rw [cleanList_cons]
      have hne : ¬ (pystrip (sp ++ x)).isEmpty := by
        rw [hsp_strip]
        simpa using hx_ne
      rw [if_neg hne, hsp_strip]
      rw [ih [' '] (Or.inr rfl) (fun i hi => hgood i (List.mem_cons_of_mem _ hi))]

theorem mem_cleanList {i : Str} {l : List Str} (h : i ∈ cleanList l) :
    ∃ s ∈ l, pystrip s = i ∧ pystrip s ≠ [] := by
  unfold cleanList at h
  rcases List.mem_map.mp h with ⟨s, hs, rfl⟩
  rcases List.mem_filter.mp hs with ⟨hmem, hcond⟩
  refine ⟨s, hmem, rfl, ?_⟩
  simpa [List.isEmpty_iff] using hcond

theorem cleanList_of_all_nonempty (l : List Str)
    (h : ∀ s ∈ l, pystrip s ≠ []) : cleanList l = l.map pystrip := by
  induction l with
  | nil => rfl
  | cons a l ih =>
    rw [cleanList_cons, if_neg (by simpa [List.isEmpty_iff] using h a (by simp)),
      List.map_cons, ih (fun s hs => h s (List.mem_cons_of_mem _ hs))]

theorem good_of_mem_cleanList_take {text : String} {k : Nat} {i : Str}
    (hik : i ∈ cleanList ((pysplitDot text.data).take k)) :
    i ≠ [] ∧ '.' ∉ i ∧ pystrip i = i := by
  rcases mem_cleanList hik with ⟨s, hs, hsi, hne⟩
  refine ⟨hsi ▸ hne, ?_, ?_⟩
  · intro hdot
    exact not_dot_mem_pysplitDot _ s (List.take_subset _ _ hs)
      (mem_of_mem_pystrip (hsi ▸ hdot))
  · rw [← hsi]
    exact pystrip_idem s

theorem selected_good (text ty : String)
    (h3 : ∀ s ∈ keyPhrases (pysplitDot text.data), s ≠ []) :
    ∀ i ∈ selectedSentences text ty, i ≠ [] ∧ '.' ∉ i ∧ pystrip i = i := by
  intro i hi
  have hkeygood : i ∈ (keyPhrases (pysplitDot text.data)).take 2 →
      i ≠ [] ∧ '.' ∉ i ∧ pystrip i = i := by
    intro hik
    have hik' : i ∈ keyPhrases (pysplitDot text.data) :=
      List.take_subset _ _ hik
    rcases List.mem_map.mp hik' with ⟨s, hsfil, hsi⟩
    rcases List.mem_filter.mp hsfil with ⟨hmem, _⟩
    refine ⟨h3 i hik', ?_, ?_⟩
    · intro hdot
      exact not_dot_mem_pysplitDot _ s (List.take_subset _ _ hmem)
        (mem_of_mem_pystrip (hsi ▸ hdot))
    · rw [← hsi]
      exact pystrip_idem s
  unfold selectedSentences at hi
  split at hi
  · split at hi
    · rcases List.mem_append.mp hi with hbase | hkey
      · exact good_of_mem_cleanList_take hbase
      · exact hkeygood hkey
    · exact good_of_mem_cleanList_take hi
  · exact good_of_mem_cleanList_take hi

theorem cleanList_take_length {segs : List Str} {k : Nat} (hk : k ≤ 6)
    (h1 : 6 < segs.length) (h2 : ∀ s ∈ segs.take 6, pystrip s ≠ []) :
    (cleanList (segs.take k)).length = k := by
  have hsub : ∀ s ∈ segs.take k, pystrip s ≠ [] := by
    intro s hs
    apply h2
    have heq : segs.take k = (segs.take 6).take k := by
      rw [List.take_take, Nat.min_eq_left hk]
    exact List.take_subset _ _ (heq ▸ hs)
  rw [cleanList_of_all_nonempty _ hsub, List.length_map, List.length_take]
  omega

theorem selectedSentences_length (text ty : String) (hwin : summaryWindow ty ≤ 6)
    (h1 : 6 < (pysplitDot text.data).length)
    (h2 : ∀ s ∈ (pysplitDot text.data).take 6, pystrip s ≠ []) :
    (selectedSentences text ty).length =
      summaryWindow ty +
        (if 10 < (pysplitDot text.data).length then
          ((keyPhrases (pysplitDot text.data)).take 2).length else 0) := by
  unfold selectedSentences
  by_cases h10 : 10 < (pysplitDot text.data).length
  · rw [if_pos h10, if_pos h10]
    by_cases hkp : (!(keyPhrases (pysplitDot text.data)).isEmpty) = true
    · rw [if_pos hkp, List.length_append, cleanList_take_length hwin h1 h2]
    · rw [if_neg hkp, cleanList_take_length hwin h1 h2]
      have hemp : keyPhrases (pysplitDot text.data) = [] := by
        rw [← List.isEmpty_iff]
        simpa using hkp
      rw [hemp]
      simp
  · rw [if_neg h10, if_neg h10, cleanList_take_length hwin h1 h2]
    simp

/-- Claim C9 (amended): the sentence counts of the three summary variants
are strictly increasing (brief < comprehensive < detailed) for every text
with more than six `.`-segments, provided the first six segments are
nonempty once stripped, the extracted key phrases are nonempty, and each
variant's joined summary already reaches the thirty-word threshold (so no
extra `sentences[4:6]` are appended).  Without those provisos the strict
ordering fails, see the counterexample. -/
theorem summary_type_sentence_counts_increase (text : String)
    (h1 : 6 < (pysplitDot text.data).length)
    (h2 : ∀ s ∈ (pysplitDot text.data).take 6, pystrip s ≠ [])
    (h3 : ∀ s ∈ keyPhrases (pysplitDot text.data), s ≠ [])
    (hb : ¬ wordCount (joinedSummary text "brief") < 30)
    (hc : ¬ wordCount (joinedSummary text "comprehensive") < 30)
    (hd : ¬ wordCount (joinedSummary text "detailed") < 30) :
    sentenceCountStr (fallback_summary text "brief") <
        sentenceCountStr (fallback_summary text "comprehensive") ∧
      sentenceCountStr (fallback_summary text "comprehensive") <
        sentenceCountStr (fallback_summary text "detailed") := by
  have hn3 : ¬ (pysplitDot text.data).length ≤ 3 := by omega
  have count_eq : ∀ ty : String,
      ¬ wordCount (joinedSummary text ty) < 30 →
      sentenceCountStr (fallback_summary text ty) =
        (selectedSentences text ty).length := by
    intro ty hwc
    unfold fallback_summary
    rw [if_neg hn3, if_neg hwc]
    show (cleanList (pysplitDot (joinedSummary text ty))).length = _
    unfold joinedSummary
    rw [show (joinDotSpace (selectedSentences text ty) ++ ['.'] : Str) =
        [] ++ joinDotSpace (selectedSentences text ty) ++ ['.'] by simp]
    rw [cleanList_pysplitDot_join (selectedSentences text ty) [] (Or.inl rfl)
      (selected_good text ty h3)]
  rw [count_eq "brief" hb, count_eq "comprehensive" hc, count_eq "detailed" hd,
    selectedSentences_length text "brief" (by decide) h1 h2,
    selectedSentences_length text "comprehensive" (by decide) h1 h2,
    selectedSentences_length text "detailed" (by decide) h1 h2]
  have hw1 : summaryWindow "brief" = 2 := by decide
  have hw2 : summaryWindow "comprehensive" = 4 := by decide
  have hw3 : summaryWindow "detailed" = 6 := by decide
  rw [hw1, hw2, hw3]
  omega

/-- Witness for the amended C9: seven sentences of sixteen words each. -/
theorem summary_type_sentence_counts_increase_witness :
    sentenceCountStr (fallback_summary "w w w w w w w w w w w w w w w w.w w w w w w w w w w w w w w w w.w w w w w w w w w w w w w w w w.w w w w w w w w w w w w w w w w.w w w w w w w w w w w w w w w w.w w w w w w w w w w w w w w w w.w w w w w w w w w w w w w w w w" "brief") <
        sentenceCountStr (fallback_summary "w w w w w w w w w w w w w w w w.w w w w w w w w w w w w w w w w.w w w w w w w w w w w w w w w w.w w w w w w w w w w w w w w w w.w w w w w w w w w w w w w w w w.w w w w w w w w w w w w w w w w.w w w w w w w w w w w w w w w w" "comprehensive") ∧
      sentenceCountStr (fallback_summary "w w w w w w w w w w w w w w w w.w w w w w w w w w w w w w w w w.w w w w w w w w w w w w w w w w.w w w w w w w w w w w w w w w w.w w w w w w w w w w w w w w w w.w w w w w w w w w w w w w w w w.w w w w w w w w w w w w w w w w" "comprehensive") <
        sentenceCountStr (fallback_summary "w w w w w w w w w w w w w w w w.w w w w w w w w w w w w w w w w.w w w w w w w w w w w w w w w w.w w w w w w w w w w w w w w w w.w w w w w w w w w w w w w w w w.w w w w w w w w w w w w w w w w.w w w w w w w w w w w w w w w w" "detailed") :=
  summary_type_sentence_counts_increase "w w w w w w w w w w w w w w w w.w w w w w w w w w w w w w w w w.w w w w w w w w w w w w w w w w.w w w w w w w w w w w w w w w w.w w w w w w w w w w w w w w w w.w w w w w w w w w w w w w w w w.w w w w w w w w w w w w w w w w"
    (by decide) (by decide) (by decide) (by decide) (by decide) (by decide)

/-! ## Translation fallback (`backend/api/routes/multilingual.py`) -/

/-- Python's regex `\w` class, for the character set occurring in this
code base: ASCII alphanumerics, underscore, and the non-ASCII letters of
the dictionaries (all of which are Unicode word characters). -/
def isWordChar (c : Char) : Bool :=
  c.isAlphanum || c = '_' || decide (128 ≤ c.toNat)

/-- Wordness of the character adjacent to a regex position (`none` at the
string edges, which count as non-word). -/
def isWordOpt : Option Char → Bool
  | none => false
  | some c => isWordChar c

/-- Case-insensitive match of `phrase` at the head of `s`; on success,
the matched original-case segment and the remainder of `s`. -/
def splitMatchCI : Str → Str → Option (Str × Str)
  | [], s => some ([], s)
  | _ :: _, [] => none
  | p :: ps, c :: cs =>
    if p.toLower = c.toLower then
      match splitMatchCI ps cs with
      | some (seg, rest) => some (c :: seg, rest)
      | none => none
    else none

/-- Scanner for `re.sub(r'\b<phrase>\b', repl, s, flags=re.IGNORECASE)`
with a nonempty phrase `p0 :: ps`: at each position of the original string
try a case-insensitive match guarded by word boundaries on both sides; on
success emit the replacement and resume after the matched segment,
otherwise emit one character and advance.  The fuel counter (initialised
to the string length, which every step strictly shrinks by at least one
character) keeps the recursion structural; the zero-fuel case is
unreachable. -/
def wordSubGo (p0 : Char) (ps repl : Str) : Nat → Option Char → Str → Str
  | 0, _, s => s
  | _ + 1, _, [] => []
  | fuel + 1, prev, c :: rest =>
    match splitMatchCI (p0 :: ps) (c :: rest) with
    | some (seg, tail) =>
      if (isWordOpt prev != isWordChar c) &&
          (isWordChar (seg.getLastD c) != isWordOpt tail.head?) then
        repl ++ wordSubGo p0 ps repl fuel (some (seg.getLastD c)) tail
      else c :: wordSubGo p0 ps repl fuel (some c) rest
    | none => c :: wordSubGo p0 ps repl fuel (some c) rest

/-- `re.sub(r'\b' + re.escape(phrase) + r'\b', repl, s, flags=IGNORECASE)`
for the plain-text phrases of the fallback dictionaries. -/
def wordSub (phrase repl s : Str) : Str :=
  match phrase with
  | [] => s
  | p0 :: ps => wordSubGo p0 ps repl s.length none s

/-- Stable insertion step for `sorted(keys, key=len, reverse=True)`. -/
def insertByLenDesc (x : String) : List String → List String
  | [] => [x]
  | y :: ys =>
    if y.length > x.length then y :: insertByLenDesc x ys else x :: y :: ys

/-- Python `sorted(keys, key=len, reverse=True)`: length-descending and
stable. -/
def sortByLenDesc : List String → List String
  | [] => []
  | x :: xs => insertByLenDesc x (sortByLenDesc xs)
/-- The hardcoded fallback dictionaries of
`TranslationManager._enhanced_fallback_translate`, keyed by
`(source_language, target_language)`, in source order with duplicate
keys merged the way a Python dict literal merges them (first position,
last value). -/
def fallbackTranslations : List ((String × String) × List (String × String)) := [
  (("en", "es"),
   [("Hello", "Hola"),
    ("Hi", "Hola"),
    ("Goodbye", "Adiós"),
    ("Bye", "Adiós"),
    ("World", "Mundo"),
    ("Earth", "Tierra"),
    ("Country", "País"),
    ("City", "Ciudad"),
    ("Documentation", "Documentación"),
    ("Document", "Documento"),
    ("Guide", "Guía"),
    ("API", "API"),
    ("Application", "Aplicación"),
    ("Program", "Programa"),
    ("Function", "Función"),
    ("Method", "Método"),
    ("Procedure", "Procedimiento"),
    ("Class", "Clase"),
    ("Object", "Objeto"),
    ("Instance", "Instancia"),
    ("Parameter", "Parámetro"),
    ("Argument", "Argumento"),
    ("Variable", "Variable"),
    ("Return", "Retornar"),
    ("Send", "Enviar"),
    ("Give", "Dar"),
    ("Back", "Atrás"),
    ("Install", "Instalar"),
    ("Setup", "Configuración"),
    ("Configure", "Configurar"),
    ("Usage", "Uso"),
    ("Use", "Usar"),
    ("Utilize", "Utilizar"),
    ("Apply", "Aplicar"),
    ("Example", "Ejemplo"),
    ("Sample", "Muestra"),
    ("Installation", "Instalación"),
    ("Configuration", "Configuración"),
    ("Settings", "Configuración"),
    ("Options", "Opciones"),
    ("Authentication", "Autenticación"),
    ("Login", "Inicio de sesión"),
    ("Sign in", "Iniciar sesión"),
    ("Database", "Base de datos"),
    ("Data", "Datos"),
    ("Information", "Información"),
    ("Server", "Servidor"),
    ("Service", "Servicio"),
    ("Host", "Anfitrión"),
    ("Client", "Cliente"),
    ("User", "Usuario"),
    ("Customer", "Cliente"),
    ("Error", "Error"),
    ("Mistake", "Error"),
    ("Problem", "Problema"),
    ("Issue", "Problema"),
    ("Success", "Éxito"),
    ("Achievement", "Logro"),
    ("Accomplishment", "Logro"),
    ("File", "Archivo"),
    ("Folder", "Carpeta"),
    ("Directory", "Directorio"),
    ("Code", "Código"),
    ("Script", "Script"),
    ("Test", "Probar"),
    ("Check", "Verificar"),
    ("Validate", "Validar"),
    ("Run", "Ejecutar"),
    ("Start", "Iniciar"),
    ("Begin", "Comenzar"),
    ("Stop", "Detener"),
    ("End", "Terminar"),
    ("Finish", "Finalizar"),
    ("Create", "Crear"),
    ("Make", "Hacer"),
    ("Build", "Construir"),
    ("Delete", "Eliminar"),
    ("Remove", "Quitar"),
    ("Destroy", "Destruir"),
    ("Update", "Actualizar"),
    ("Modify", "Modificar"),
    ("Change", "Cambiar"),
    ("Save", "Guardar"),
    ("Store", "Almacenar"),
    ("Keep", "Mantener"),
    ("Load", "Cargar"),
    ("Import", "Importar"),
    ("Bring", "Traer"),
    ("Export", "Exportar"),
    ("Transfer", "Transferir"),
    ("Search", "Buscar"),
    ("Find", "Encontrar"),
    ("Look", "Mirar"),
    ("Replace", "Reemplazar"),
    ("Substitute", "Sustituir"),
    ("Exchange", "Intercambiar"),
    ("Copy", "Copiar"),
    ("Duplicate", "Duplicar"),
    ("Clone", "Clonar"),
    ("Paste", "Pegar"),
    ("Insert", "Insertar"),
    ("Add", "Agregar"),
    ("Cut", "Cortar"),
    ("Undo", "Deshacer"),
    ("Redo", "Rehacer"),
    ("Repeat", "Repetir"),
    ("Cancel", "Cancelar"),
    ("Abort", "Abortar"),
    ("Confirm", "Confirmar"),
    ("Accept", "Aceptar"),
    ("Agree", "Aceptar"),
    ("Reject", "Rechazar"),
    ("Deny", "Denegar"),
    ("Refuse", "Rechazar"),
    ("Yes", "Sí"),
    ("No", "No"),
    ("Maybe", "Tal vez"),
    ("Perhaps", "Quizás"),
    ("Please", "Por favor"),
    ("Thank you", "Gracias"),
    ("Thanks", "Gracias"),
    ("Welcome", "Bienvenido"),
    ("Good", "Bueno"),
    ("Bad", "Malo"),
    ("Big", "Grande"),
    ("Small", "Pequeño"),
    ("Large", "Grande"),
    ("Fast", "Rápido"),
    ("Slow", "Lento"),
    ("Quick", "Rápido"),
    ("Easy", "Fácil"),
    ("Hard", "Difícil"),
    ("Simple", "Simple"),
    ("Complex", "Complejo"),
    ("Advanced", "Avanzado"),
    ("Basic", "Básico"),
    ("New", "Nuevo"),
    ("Old", "Viejo"),
    ("Recent", "Reciente"),
    ("First", "Primero"),
    ("Last", "Último"),
    ("Next", "Siguiente"),
    ("Previous", "Anterior"),
    ("Before", "Antes"),
    ("After", "Después"),
    ("Now", "Ahora"),
    ("Today", "Hoy"),
    ("Tomorrow", "Mañana"),
    ("Yesterday", "Ayer"),
    ("Week", "Semana"),
    ("Month", "Mes"),
    ("Year", "Año"),
    ("Time", "Tiempo"),
    ("Date", "Fecha"),
    ("Name", "Nombre"),
    ("Title", "Título"),
    ("Description", "Descripción"),
    ("Content", "Contenido"),
    ("Text", "Texto"),
    ("Message", "Mensaje"),
    ("Note", "Nota"),
    ("Comment", "Comentario"),
    ("Remark", "Observación"),
    ("Help", "Ayuda"),
    ("Support", "Soporte"),
    ("Assistance", "Asistencia"),
    ("Manual", "Manual"),
    ("Tutorial", "Tutorial"),
    ("Reference", "Referencia"),
    ("Docs", "Documentos"),
    ("About", "Acerca de"),
    ("Info", "Información"),
    ("Details", "Detalles"),
    ("Preferences", "Preferencias"),
    ("Profile", "Perfil"),
    ("Account", "Cuenta"),
    ("Password", "Contraseña"),
    ("Username", "Nombre de usuario"),
    ("Logout", "Cerrar sesión"),
    ("Sign out", "Cerrar sesión"),
    ("Exit", "Salir"),
    ("Home", "Inicio"),
    ("Main", "Principal"),
    ("Dashboard", "Panel de control"),
    ("Menu", "Menú"),
    ("Navigation", "Navegación"),
    ("Links", "Enlaces"),
    ("Button", "Botón"),
    ("Click", "Hacer clic"),
    ("Press", "Presionar"),
    ("Select", "Seleccionar"),
    ("Choose", "Elegir"),
    ("Pick", "Elegir"),
    ("Input", "Entrada"),
    ("Field", "Campo"),
    ("Form", "Formulario"),
    ("Submit", "Enviar"),
    ("Upload", "Subir"),
    ("Download", "Descargar"),
    ("Get", "Obtener"),
    ("Receive", "Recibir"),
    ("View", "Ver"),
    ("Show", "Mostrar"),
    ("Display", "Mostrar"),
    ("Hide", "Ocultar"),
    ("Conceal", "Ocultar"),
    ("Mask", "Enmascarar"),
    ("Open", "Abrir"),
    ("Close", "Cerrar"),
    ("Shut", "Cerrar"),
    ("Minimize", "Minimizar"),
    ("Maximize", "Maximizar"),
    ("Resize", "Redimensionar"),
    ("Move", "Mover"),
    ("Drag", "Arrastrar"),
    ("Drop", "Soltar"),
    ("Scale", "Escalar"),
    ("Adjust", "Ajustar"),
    ("Zoom", "Zoom"),
    ("Enlarge", "Ampliar"),
    ("Reduce", "Reducir"),
    ("Print", "Imprimir"),
    ("Share", "Compartir"),
    ("Email", "Correo electrónico"),
    ("Mail", "Correo"),
    ("Contact", "Contacto"),
    ("Address", "Dirección"),
    ("Phone", "Teléfono"),
    ("Number", "Número"),
    ("Count", "Contar"),
    ("Amount", "Cantidad"),
    ("Price", "Precio"),
    ("Cost", "Costo"),
    ("Value", "Valor"),
    ("Free", "Libre"),
    ("Paid", "Pagado"),
    ("Premium", "Premium"),
    ("Public", "Público"),
    ("Private", "Privado"),
    ("Secret", "Secreto"),
    ("Secure", "Seguro"),
    ("Safe", "Seguro"),
    ("Protected", "Protegido"),
    ("Lock", "Bloquear"),
    ("Unlock", "Desbloquear"),
    ("Key", "Clave"),
    ("Access", "Acceder"),
    ("Permission", "Permiso"),
    ("Grant", "Conceder"),
    ("Allow", "Permitir"),
    ("Block", "Bloquear"),
    ("Enable", "Habilitar"),
    ("Disable", "Deshabilitar"),
    ("Activate", "Activar"),
    ("Deactivate", "Desactivar"),
    ("Turn on", "Encender"),
    ("Turn off", "Apagar"),
    ("Launch", "Lanzar"),
    ("Pause", "Pausar"),
    ("Resume", "Reanudar"),
    ("Continue", "Continuar"),
    ("Restart", "Reiniciar"),
    ("Reset", "Restablecer"),
    ("Refresh", "Actualizar"),
    ("Reload", "Recargar"),
    ("Upgrade", "Actualizar"),
    ("Uninstall", "Desinstalar"),
    ("Include", "Incluir"),
    ("Exclude", "Excluir"),
    ("Generate", "Generar"),
    ("Compile", "Compilar"),
    ("Assemble", "Ensamblar"),
    ("Debug", "Depurar"),
    ("Fix", "Arreglar"),
    ("Repair", "Reparar"),
    ("Bug", "Error"),
    ("Trouble", "Problema"),
    ("Difficulty", "Dificultad"),
    ("Solution", "Solución"),
    ("Answer", "Respuesta"),
    ("Result", "Resultado"),
    ("Victory", "Victoria"),
    ("Failure", "Fracaso"),
    ("Loss", "Pérdida"),
    ("Defeat", "Derrota"),
    ("Warning", "Advertencia"),
    ("Alert", "Alerta"),
    ("Notice", "Aviso"),
    ("Summary", "Resumen"),
    ("Report", "Informe"),
    ("Log", "Registro"),
    ("History", "Historial"),
    ("Record", "Registro"),
    ("Entry", "Entrada"),
    ("Item", "Elemento"),
    ("List", "Lista"),
    ("Table", "Tabla"),
    ("Grid", "Cuadrícula"),
    ("Chart", "Gráfico"),
    ("Graph", "Gráfico"),
    ("Diagram", "Diagrama"),
    ("Image", "Imagen"),
    ("Picture", "Imagen"),
    ("Photo", "Foto"),
    ("Video", "Video"),
    ("Audio", "Audio"),
    ("Sound", "Sonido"),
    ("Music", "Música"),
    ("Song", "Canción"),
    ("Track", "Pista"),
    ("Path", "Ruta"),
    ("Link", "Enlace"),
    ("URL", "URL"),
    ("Website", "Sitio web"),
    ("Page", "Página"),
    ("Site", "Sitio"),
    ("Web", "Web"),
    ("Internet", "Internet"),
    ("Network", "Red"),
    ("Connection", "Conexión"),
    ("Connect", "Conectar"),
    ("Join", "Unirse"),
    ("Disconnect", "Desconectar"),
    ("Leave", "Salir"),
    ("Quit", "Salir"),
    ("Online", "En línea"),
    ("Offline", "Sin conexión"),
    ("Available", "Disponible"),
    ("Busy", "Ocupado"),
    ("Ready", "Listo"),
    ("Loading", "Cargando"),
    ("Processing", "Procesando"),
    ("Working", "Trabajando"),
    ("Complete", "Completo"),
    ("Finished", "Terminado"),
    ("Done", "Hecho"),
    ("Prepared", "Preparado"),
    ("Set", "Listo"),
    ("Wait", "Esperar"),
    ("Hold", "Esperar"),
    ("Proceed", "Continuar"),
    ("Go", "Ir"),
    ("Come", "Venir"),
    ("Arrive", "Llegar"),
    ("Reach", "Llegar"),
    ("Go away", "Irse"),
    ("Depart", "Partir"),
    ("Enter", "Entrar"),
    ("Sorry", "Lo siento"),
    ("Excuse me", "Disculpe"),
    ("Pardon", "Perdón"),
    ("Forgive", "Perdonar"),
    ("Understand", "Entender"),
    ("Know", "Saber"),
    ("Learn", "Aprender"),
    ("Study", "Estudiar"),
    ("Read", "Leer"),
    ("Write", "Escribir"),
    ("Speak", "Hablar"),
    ("Talk", "Hablar"),
    ("Listen", "Escuchar"),
    ("Hear", "Oír"),
    ("See", "Ver"),
    ("Watch", "Ver"),
    ("Touch", "Tocar"),
    ("Feel", "Sentir"),
    ("Smell", "Oler"),
    ("Taste", "Probar")]),
  (("en", "fr"),
   [("Hello", "Bonjour"),
    ("World", "Monde"),
    ("Documentation", "Documentation"),
    ("API", "API"),
    ("Function", "Fonction"),
    ("Class", "Classe"),
    ("Method", "Méthode"),
    ("Parameter", "Paramètre"),
    ("Return", "Retourner"),
    ("Install", "Installer"),
    ("Setup", "Configuration"),
    ("Usage", "Utilisation"),
    ("Example", "Exemple"),
    ("Installation", "Installation"),
    ("Configuration", "Configuration"),
    ("Authentication", "Authentification"),
    ("Database", "Base de données"),
    ("Server", "Serveur"),
    ("Client", "Client"),
    ("Error", "Erreur"),
    ("Success", "Succès")]),
  (("en", "de"),
   [("Hello", "Hallo"),
    ("World", "Welt"),
    ("Documentation", "Dokumentation"),
    ("API", "API"),
    ("Function", "Funktion"),
    ("Class", "Klasse"),
    ("Method", "Methode"),
    ("Parameter", "Parameter"),
    ("Return", "Zurückgeben"),
    ("Install", "Installieren"),
    ("Setup", "Einrichtung"),
    ("Usage", "Verwendung"),
    ("Example", "Beispiel"),
    ("Installation", "Installation"),
    ("Configuration", "Konfiguration"),
    ("Authentication", "Authentifizierung"),
    ("Database", "Datenbank"),
    ("Server", "Server"),
    ("Client", "Client"),
    ("Error", "Fehler"),
    ("Success", "Erfolg")]),
  (("en", "zh"),
   [("Hello", "你好"),
    ("Hi", "你好"),
    ("Goodbye", "再见"),
    ("Bye", "再见"),
    ("World", "世界"),
    ("Earth", "地球"),
    ("Country", "国家"),
    ("City", "城市"),
    ("Documentation", "文档"),
    ("Document", "文档"),
    ("Guide", "指南"),
    ("API", "API"),
    ("Application", "应用"),
    ("Program", "程序"),
    ("Function", "函数"),
    ("Method", "方法"),
    ("Procedure", "程序"),
    ("Parameter", "参数"),
    ("Argument", "参数"),
    ("Variable", "变量"),
    ("Return", "返回"),
    ("Send", "发送"),
    ("Give", "给"),
    ("Back", "后面"),
    ("Install", "安装"),
    ("Setup", "设置"),
    ("Configure", "配置"),
    ("Usage", "使用"),
    ("Use", "使用"),
    ("Utilize", "利用"),
    ("Apply", "应用"),
    ("Example", "示例"),
    ("Sample", "样本"),
    ("Instance", "实例"),
    ("Installation", "安装"),
    ("Configuration", "配置"),
    ("Settings", "设置"),
    ("Options", "选项"),
    ("Authentication", "认证"),
    ("Login", "登录"),
    ("Sign in", "登录"),
    ("Database", "数据库"),
    ("Data", "数据"),
    ("Information", "信息"),
    ("Server", "服务器"),
    ("Service", "服务"),
    ("Host", "主机"),
    ("Client", "客户端"),
    ("User", "用户"),
    ("Customer", "客户"),
    ("Error", "错误"),
    ("Mistake", "错误"),
    ("Problem", "问题"),
    ("Issue", "问题"),
    ("Success", "成功"),
    ("Achievement", "成就"),
    ("Accomplishment", "成就"),
    ("I", "我"),
    ("You", "你"),
    ("He", "他"),
    ("She", "她"),
    ("It", "它"),
    ("We", "我们"),
    ("They", "他们"),
    ("Am", "是"),
    ("Is", "是"),
    ("Are", "是"),
    ("Was", "是"),
    ("Were", "是"),
    ("Be", "是"),
    ("Been", "是"),
    ("A", "一个"),
    ("An", "一个"),
    ("The", "这个"),
    ("This", "这个"),
    ("That", "那个"),
    ("These", "这些"),
    ("Those", "那些"),
    ("Good", "好"),
    ("Bad", "坏"),
    ("Great", "很好"),
    ("Excellent", "优秀"),
    ("Perfect", "完美"),
    ("Scientist", "科学家"),
    ("Engineer", "工程师"),
    ("Developer", "开发者"),
    ("Programmer", "程序员"),
    ("Student", "学生"),
    ("Teacher", "老师"),
    ("Professor", "教授"),
    ("Doctor", "医生"),
    ("Manager", "经理"),
    ("Director", "主任"),
    ("CEO", "首席执行官"),
    ("President", "总裁"),
    ("Company", "公司"),
    ("Business", "企业"),
    ("Organization", "组织"),
    ("Team", "团队"),
    ("Project", "项目"),
    ("Work", "工作"),
    ("Job", "工作"),
    ("Career", "职业"),
    ("Study", "学习"),
    ("Research", "研究"),
    ("Analysis", "分析"),
    ("Report", "报告"),
    ("Book", "书"),
    ("Article", "文章"),
    ("Paper", "论文"),
    ("Computer", "计算机"),
    ("Software", "软件"),
    ("Hardware", "硬件"),
    ("System", "系统"),
    ("Network", "网络"),
    ("Internet", "互联网"),
    ("Website", "网站"),
    ("Mobile", "移动"),
    ("Phone", "电话"),
    ("Email", "电子邮件"),
    ("Message", "消息"),
    ("Meeting", "会议"),
    ("Conference", "会议"),
    ("Presentation", "演示"),
    ("Discussion", "讨论"),
    ("Solution", "解决方案"),
    ("Answer", "答案"),
    ("Question", "问题"),
    ("Help", "帮助"),
    ("Support", "支持"),
    ("Money", "钱"),
    ("Price", "价格"),
    ("Cost", "成本"),
    ("Budget", "预算"),
    ("Time", "时间"),
    ("Date", "日期"),
    ("Today", "今天"),
    ("Tomorrow", "明天"),
    ("Yesterday", "昨天"),
    ("Morning", "早上"),
    ("Afternoon", "下午"),
    ("Evening", "晚上"),
    ("Night", "晚上"),
    ("Week", "周"),
    ("Month", "月"),
    ("Year", "年"),
    ("Day", "天"),
    ("Home", "主页"),
    ("Office", "办公室"),
    ("School", "学校"),
    ("University", "大学"),
    ("Hospital", "医院"),
    ("Store", "存储"),
    ("Restaurant", "餐厅"),
    ("Hotel", "酒店"),
    ("Car", "汽车"),
    ("Bus", "公交车"),
    ("Train", "火车"),
    ("Airplane", "飞机"),
    ("Food", "食物"),
    ("Water", "水"),
    ("Coffee", "咖啡"),
    ("Tea", "茶"),
    ("Family", "家庭"),
    ("Friend", "朋友"),
    ("Colleague", "同事"),
    ("Partner", "伙伴"),
    ("Love", "爱"),
    ("Like", "喜欢"),
    ("Hate", "讨厌"),
    ("Want", "想要"),
    ("Need", "需要"),
    ("Must", "必须"),
    ("Should", "应该"),
    ("Can", "能"),
    ("Will", "会"),
    ("Do", "做"),
    ("Make", "制作"),
    ("Create", "创建"),
    ("Build", "构建"),
    ("See", "看到"),
    ("Look", "看"),
    ("Watch", "观看"),
    ("Read", "阅读"),
    ("Listen", "听"),
    ("Hear", "听到"),
    ("Speak", "说"),
    ("Talk", "说"),
    ("Write", "写"),
    ("Draw", "画"),
    ("Design", "设计"),
    ("Plan", "计划"),
    ("Think", "想"),
    ("Know", "知道"),
    ("Understand", "理解"),
    ("Learn", "学习"),
    ("Remember", "记住"),
    ("Forget", "忘记"),
    ("Find", "找到"),
    ("Search", "搜索"),
    ("Buy", "买"),
    ("Sell", "卖"),
    ("Pay", "付"),
    ("Get", "获得"),
    ("Take", "拿"),
    ("Bring", "带来"),
    ("Come", "来"),
    ("Go", "去"),
    ("Leave", "离开"),
    ("Arrive", "到达"),
    ("Start", "开始"),
    ("Stop", "停止"),
    ("Continue", "继续"),
    ("Finish", "完成"),
    ("Open", "打开"),
    ("Close", "关闭"),
    ("Save", "保存"),
    ("Delete", "删除"),
    ("Copy", "复制"),
    ("Paste", "粘贴"),
    ("Cut", "剪切"),
    ("Print", "打印"),
    ("Download", "下载"),
    ("Upload", "上传"),
    ("Share", "分享"),
    ("Link", "链接"),
    ("New", "新"),
    ("Old", "老"),
    ("Big", "大"),
    ("Small", "小"),
    ("Fast", "快"),
    ("Slow", "慢"),
    ("Easy", "容易"),
    ("Hard", "困难"),
    ("Important", "重要"),
    ("Special", "特别"),
    ("Different", "不同"),
    ("Same", "相同"),
    ("Right", "正确"),
    ("Wrong", "错误"),
    ("True", "真"),
    ("False", "假"),
    ("Yes", "是"),
    ("No", "否"),
    ("Maybe", "可能"),
    ("Please", "请"),
    ("Thank you", "谢谢"),
    ("Sorry", "对不起"),
    ("Welcome", "欢迎"),
    ("File", "文件"),
    ("Folder", "文件夹"),
    ("Directory", "目录"),
    ("Code", "代码"),
    ("Script", "脚本"),
    ("Test", "测试"),
    ("Check", "检查"),
    ("Validate", "验证"),
    ("Run", "运行"),
    ("Begin", "开始"),
    ("End", "结束"),
    ("Remove", "移除"),
    ("Destroy", "破坏"),
    ("Update", "更新"),
    ("Modify", "修改"),
    ("Change", "改变"),
    ("Keep", "保持"),
    ("Load", "加载"),
    ("Import", "导入"),
    ("Export", "导出"),
    ("Transfer", "转移"),
    ("Replace", "替换"),
    ("Substitute", "代替"),
    ("Exchange", "交换"),
    ("Duplicate", "复制"),
    ("Clone", "克隆"),
    ("Insert", "插入"),
    ("Add", "添加"),
    ("Undo", "撤销"),
    ("Redo", "重做"),
    ("Repeat", "重复"),
    ("Cancel", "取消"),
    ("Abort", "中断"),
    ("Confirm", "确认"),
    ("Accept", "接受"),
    ("Agree", "同意"),
    ("Reject", "拒绝"),
    ("Deny", "拒绝"),
    ("Refuse", "拒绝"),
    ("Perhaps", "可能"),
    ("Thanks", "谢谢"),
    ("Large", "大"),
    ("Quick", "快"),
    ("Simple", "简单"),
    ("Complex", "复杂"),
    ("Advanced", "高级"),
    ("Basic", "基本"),
    ("Recent", "最近"),
    ("First", "第一"),
    ("Last", "最后"),
    ("Next", "下一个"),
    ("Previous", "上一个"),
    ("Before", "之前"),
    ("After", "之后"),
    ("Now", "现在"),
    ("Name", "名称"),
    ("Title", "标题"),
    ("Description", "描述"),
    ("Content", "内容"),
    ("Text", "文本"),
    ("Note", "备注"),
    ("Comment", "评论"),
    ("Remark", "说明"),
    ("Assistance", "协助"),
    ("Manual", "手册"),
    ("Tutorial", "教程"),
    ("Reference", "参考"),
    ("Docs", "文档"),
    ("About", "关于"),
    ("Info", "信息"),
    ("Details", "详细"),
    ("Preferences", "偏好"),
    ("Profile", "个人资料"),
    ("Account", "账户"),
    ("Password", "密码"),
    ("Username", "用户名"),
    ("Logout", "登出"),
    ("Sign out", "登出"),
    ("Exit", "退出"),
    ("Main", "主要"),
    ("Dashboard", "仪表板"),
    ("Menu", "菜单"),
    ("Navigation", "导航"),
    ("Links", "链接"),
    ("Button", "按钮"),
    ("Click", "点击"),
    ("Press", "按"),
    ("Select", "选择"),
    ("Choose", "选择"),
    ("Pick", "选择"),
    ("Input", "输入"),
    ("Field", "字段"),
    ("Form", "表单"),
    ("Submit", "提交"),
    ("Receive", "接收"),
    ("View", "查看"),
    ("Show", "显示"),
    ("Display", "显示"),
    ("Hide", "隐藏"),
    ("Conceal", "隐藏"),
    ("Mask", "掩盖"),
    ("Shut", "关闭"),
    ("Minimize", "最小化"),
    ("Maximize", "最大化"),
    ("Resize", "调整大小"),
    ("Move", "移动"),
    ("Drag", "拖拽"),
    ("Drop", "放下"),
    ("Scale", "缩放"),
    ("Adjust", "调整"),
    ("Zoom", "缩放"),
    ("Enlarge", "扩大"),
    ("Reduce", "缩小"),
    ("Mail", "邮件"),
    ("Contact", "联系"),
    ("Address", "地址"),
    ("Number", "数字"),
    ("Count", "计数"),
    ("Amount", "数量"),
    ("Value", "价值"),
    ("Free", "免费"),
    ("Paid", "付费"),
    ("Premium", "高级"),
    ("Public", "公共"),
    ("Private", "私人"),
    ("Secret", "秘密"),
    ("Secure", "安全"),
    ("Safe", "安全"),
    ("Protected", "保护"),
    ("Lock", "锁定"),
    ("Unlock", "解锁"),
    ("Key", "键"),
    ("Access", "访问"),
    ("Permission", "权限"),
    ("Grant", "授予"),
    ("Allow", "允许"),
    ("Block", "阻止"),
    ("Enable", "启用"),
    ("Disable", "禁用"),
    ("Activate", "激活"),
    ("Deactivate", "停用"),
    ("Turn on", "打开"),
    ("Turn off", "关闭"),
    ("Launch", "启动"),
    ("Pause", "暂停"),
    ("Resume", "恢复"),
    ("Restart", "重启"),
    ("Reset", "重置"),
    ("Refresh", "刷新"),
    ("Reload", "重载"),
    ("Upgrade", "升级"),
    ("Uninstall", "卸载"),
    ("Include", "包括"),
    ("Exclude", "排除"),
    ("Generate", "生成"),
    ("Compile", "编译"),
    ("Assemble", "组装"),
    ("Debug", "调试"),
    ("Fix", "修复"),
    ("Repair", "修理"),
    ("Bug", "虫"),
    ("Trouble", "麻烦"),
    ("Difficulty", "困难"),
    ("Result", "结果"),
    ("Victory", "胜利"),
    ("Failure", "失败"),
    ("Loss", "损失"),
    ("Defeat", "败北"),
    ("Warning", "警告"),
    ("Alert", "警报"),
    ("Notice", "通知"),
    ("Summary", "摘要"),
    ("Log", "日志"),
    ("History", "历史"),
    ("Record", "记录"),
    ("Entry", "条目"),
    ("Item", "项目"),
    ("List", "列表"),
    ("Table", "表格"),
    ("Grid", "网格"),
    ("Chart", "图表"),
    ("Graph", "图表"),
    ("Diagram", "图解"),
    ("Image", "图片"),
    ("Picture", "图片"),
    ("Photo", "照片"),
    ("Video", "视频"),
    ("Audio", "音频"),
    ("Sound", "声音"),
    ("Music", "音乐"),
    ("Song", "歌曲"),
    ("Track", "轨道"),
    ("Path", "路径"),
    ("URL", "网址"),
    ("Page", "页面"),
    ("Site", "站点"),
    ("Web", "网络"),
    ("Connection", "连接"),
    ("Connect", "连接"),
    ("Join", "加入"),
    ("Disconnect", "断开"),
    ("Quit", "退出"),
    ("Online", "在线"),
    ("Offline", "离线"),
    ("Available", "可用"),
    ("Busy", "忙"),
    ("Ready", "准备好"),
    ("Loading", "加载中"),
    ("Processing", "处理中"),
    ("Working", "工作中"),
    ("Complete", "完成"),
    ("Finished", "完成"),
    ("Done", "完成"),
    ("Prepared", "准备好"),
    ("Set", "设置"),
    ("Wait", "等待"),
    ("Hold", "持有"),
    ("Proceed", "继续"),
    ("Reach", "到达"),
    ("Go away", "走开"),
    ("Depart", "出发"),
    ("Enter", "进入"),
    ("Excuse me", "抱歉"),
    ("Pardon", "请原谅"),
    ("Forgive", "原谅"),
    ("Touch", "触摸"),
    ("Feel", "感觉"),
    ("Smell", "闻"),
    ("Taste", "味道")]),
  (("en", "ja"),
   [("Hello", "こんにちは"),
    ("World", "世界"),
    ("Documentation", "ドキュメント"),
    ("API", "API"),
    ("Function", "関数"),
    ("Class", "クラス"),
    ("Method", "メソッド"),
    ("Parameter", "パラメータ"),
    ("Return", "戻る"),
    ("Install", "インストール"),
    ("Setup", "セットアップ"),
    ("Usage", "使用方法"),
    ("Example", "例"),
    ("Installation", "インストール"),
    ("Configuration", "設定"),
    ("Authentication", "認証"),
    ("Database", "データベース"),
    ("Server", "サーバー"),
    ("Client", "クライアント"),
    ("Error", "エラー"),
    ("Success", "成功")])
]

/-- `TranslationManager._enhanced_fallback_translate`: for a supported
language pair, first substitute the multi-word phrases (keys sorted by
length, longest first), then the single-word entries in dictionary order,
both as case-insensitive whole-word replacements; if nothing changed, fall
back to word-by-word lookup of the cleaned lower-cased words (whose keys
are capitalised, so this never fires); unsupported pairs get the
`[TARGET] <content>` passthrough. -/
def enhancedFallbackTranslate (content source_lang target_lang : String) :
    String :=
  match pyGet fallbackTranslations (source_lang, target_lang) with
  | some dict =>
    let phrases := sortByLenDesc (dict.map Prod.fst)
    let t1 := phrases.foldl (fun acc phrase =>
      if 1 < (pysplitWs phrase.data).length then
        wordSub phrase.data ((pyGet dict phrase).getD "").data acc
      else acc) content.data
    let t2 := dict.foldl (fun acc kv =>
      if (pysplitWs kv.1.data).length = 1 then
        wordSub kv.1.data kv.2.data acc
      else acc) t1
    if t2 = content.data then
      ⟨joinSpace ((pysplitWs content.data).map (fun w =>
        match pyGet dict (String.mk ((w.map Char.toLower).filter isWordChar)) with
        | some v => v.data
        | none => w))⟩
    else ⟨t2⟩
  | none => "[" ++ String.mk (target_lang.data.map Char.toUpper) ++ "] " ++ content

/-- The ambient configuration and network outcomes seen by
`TranslationManager._basic_translate`: whether each API key is configured
(`settings.huggingface_api_key`, and the `hasattr`-guarded
`settings.google_translate_api_key`), and the usable result, if any, that
each outbound HTTP helper would return (`None` models failure, falsy
responses and responses equal to the input, which the helpers filter
out). -/
structure TranslationEnv where
  huggingface_api_key : Bool
  google_translate_api_key : Bool
  hfTranslation : String → String → String → Option String
  googleTranslation : String → String → String → Option String
  libreTranslation : String → String → String → Option String
  myMemoryTranslation : String → String → String → Option String
  aiModelTranslation : String → String → String → Option String
  generalModelTranslation : String → String → String → Option String

/-- `TranslationManager._try_general_translation`: without an API key it
returns the enhanced dictionary fallback; otherwise the text-generation
result when usable, else the enhanced fallback. -/
def tryGeneralTranslation (env : TranslationEnv)
    (content source_lang target_lang : String) : String :=
  if env.huggingface_api_key then
    match env.generalModelTranslation content source_lang target_lang with
    | some t => t
    | none => enhancedFallbackTranslate content source_lang target_lang
  else enhancedFallbackTranslate content source_lang target_lang

/-- `TranslationManager._ai_powered_fallback`: without an API key it
returns the enhanced dictionary fallback; otherwise the model result when
usable, else `_try_general_translation`. -/
def aiPoweredFallback (env : TranslationEnv)
    (content source_lang target_lang : String) : String :=
  if env.huggingface_api_key then
    match env.aiModelTranslation content source_lang target_lang with
    | some t => t
    | none => tryGeneralTranslation env content source_lang target_lang
  else enhancedFallbackTranslate content source_lang target_lang

/-- `TranslationManager._basic_translate`: the provider chain Hugging
Face → Google → LibreTranslate → MyMemory → AI fallback → enhanced
dictionary fallback, each tried once and accepted when truthy. -/
def basicTranslate (env : TranslationEnv)
    (content source_lang target_lang : String) : String :=
  match (if env.huggingface_api_key then
      env.hfTranslation content source_lang target_lang else none) with
  | some t => t
  | none =>
    match (if env.google_translate_api_key then
        env.googleTranslation content source_lang target_lang else none) with
    | some t => t
    | none =>
      match env.libreTranslation content source_lang target_lang with
      | some t => t
      | none =>
        match env.myMemoryTranslation content source_lang target_lang with
        | some t => t
        | none =>
          if (aiPoweredFallback env content source_lang target_lang).isEmpty then
            enhancedFallbackTranslate content source_lang target_lang
          else aiPoweredFallback env content source_lang target_lang

/-- The unconfigured environment: no API keys, every provider
unreachable. -/
def unconfiguredEnv : TranslationEnv where
  huggingface_api_key := false
  google_translate_api_key := false
  hfTranslation := fun _ _ _ => none
  googleTranslation := fun _ _ _ => none
  libreTranslation := fun _ _ _ => none
  myMemoryTranslation := fun _ _ _ => none
  aiModelTranslation := fun _ _ _ => none
  generalModelTranslation := fun _ _ _ => none

set_option maxRecDepth 100000 in
/-- Claim C4: in any unconfigured environment (no API keys, LibreTranslate
and MyMemory unavailable), translating "Hello" from `en` to `es` through
`_basic_translate` returns the dictionary hit "Hola". -/
theorem translate_hello_en_es_hola (env : TranslationEnv)
    (h1 : env.huggingface_api_key = false)
    (h2 : env.google_translate_api_key = false)
    (h3 : env.libreTranslation "Hello" "en" "es" = none)
    (h4 : env.myMemoryTranslation "Hello" "en" "es" = none) :
    basicTranslate env "Hello" "en" "es" = "Hola" := by
  have henh : enhancedFallbackTranslate "Hello" "en" "es" = "Hola" := rfl
  unfold basicTranslate aiPoweredFallback
  rw [h1, h2, h3, h4, henh]
  simp

set_option maxRecDepth 100000 in
/-- Witness for C4: the concrete unconfigured environment. -/
theorem translate_hello_en_es_hola_witness :
    unconfiguredEnv.huggingface_api_key = false ∧
      unconfiguredEnv.google_translate_api_key = false ∧
      unconfiguredEnv.libreTranslation "Hello" "en" "es" = none ∧
      unconfiguredEnv.myMemoryTranslation "Hello" "en" "es" = none ∧
      basicTranslate unconfiguredEnv "Hello" "en" "es" = "Hola" :=
  ⟨rfl, rfl, rfl, rfl,
    translate_hello_en_es_hola unconfiguredEnv rfl rfl rfl rfl⟩

set_option maxRecDepth 100000 in
/-- Claim C5 (counterexample): in the unconfigured environment, the
unmapped phrase "qwerty" translated from `en` to `es` comes back
unchanged, not in the claimed `[ES] <text>` passthrough form: the
bracketed passthrough is only produced for language pairs that have no
fallback dictionary at all. -/
theorem unmapped_en_es_phrase_is_unchanged :
    basicTranslate unconfiguredEnv "qwerty" "en" "es" = "qwerty" ∧
      ("qwerty" : String) ≠ "[ES] qwerty" := by
  exact ⟨rfl, by decide⟩

/-- Claim C5 (amended): `_enhanced_fallback_translate` produces the
`[TARGET] <text>` passthrough exactly for language pairs that have no
fallback dictionary; for the dictionary pair en→es an unmapped phrase is
returned unchanged instead (see the counterexample). -/
theorem passthrough_for_unsupported_pair
    (content source_lang target_lang : String)
    (h : pyGet fallbackTranslations (source_lang, target_lang) = none) :
    enhancedFallbackTranslate content source_lang target_lang =
      "[" ++ String.mk (target_lang.data.map Char.toUpper) ++ "] " ++ content := by
  unfold enhancedFallbackTranslate
  rw [h]

/-- Witness for the amended C5: en→ko has no fallback dictionary, so the
passthrough form is returned. -/
theorem passthrough_for_unsupported_pair_witness :
    pyGet fallbackTranslations ("en", "ko") = none ∧
      enhancedFallbackTranslate "Hello" "en" "ko" = "[KO] Hello" :=
  ⟨rfl, passthrough_for_unsupported_pair "Hello" "en" "ko" rfl⟩

/-! ## Localization (`backend/api/routes/multilingual.py`,
`TranslationManager.localize_content` and its route) -/

/-- Pydantic model `LocalizationRequest`: its only locale-like declared
field is `target_locale`. -/
structure LocalizationRequest where
  content : String
  target_locale : String
  content_type : String
  preserve_technical_terms : Bool := true

/-- Response model `LocalizationResponse`. -/
structure LocalizationResponse where
  localized_content : String
  locale : String
  technical_terms_preserved : List String
  cultural_adaptations : List String

/-- Python exceptions relevant to the localization path. -/
inductive PyErr where
  | attributeError (name : String)
  | httpException (status : Nat) (detail : String)
deriving DecidableEq, Repr

/-- Dynamic attribute access on a `LocalizationRequest` instance: pydantic
models raise `AttributeError` for any attribute that is not a declared
field, so `locale` is absent. -/
def LocalizationRequest.strAttr (r : LocalizationRequest) :
    String → Option String
  | "content" => some r.content
  | "target_locale" => some r.target_locale
  | "content_type" => some r.content_type
  | _ => none

/-- The ten language codes of `_load_supported_languages`. -/
def supportedLanguageCodes : List String :=
  ["en", "es", "fr", "de", "zh", "ja", "ko", "ar", "hi", "pt"]

/-- Exact-match prefix strip for `str.replace`. -/
def stripPrefixExact : Str → Str → Option Str
  | [], s => some s
  | _ :: _, [] => none
  | a :: ns, b :: hs => if a = b then stripPrefixExact ns hs else none

/-- Left-to-right non-overlapping replacement scanner (fuel keeps the
recursion structural; initialised to the string length, it never runs
out). -/
def replaceGo (n0 : Char) (ns repl : Str) : Nat → Str → Str
  | 0, s => s
  | _ + 1, [] => []
  | fuel + 1, c :: rest =>
    match stripPrefixExact (n0 :: ns) (c :: rest) with
    | some tail => repl ++ replaceGo n0 ns repl fuel tail
    | none => c :: replaceGo n0 ns repl fuel rest

/-- Python `s.replace(needle, repl)` for nonempty needles. -/
def pyReplace (s needle repl : String) : String :=
  match needle.data with
  | [] => s
  | n0 :: ns => ⟨replaceGo n0 ns repl.data s.data.length s.data⟩

/-- `TranslationManager._basic_localize`. -/
def basicLocalize (content locale content_type : String)
    (preserve_terms : Bool) : String :=
  if locale = "es" then
    pyReplace
      (if content_type = "ui" then
        pyReplace (pyReplace (pyReplace (pyReplace content
          "Install" "Instalar") "Setup" "Configurar") "Help" "Ayuda")
          "Settings" "Configuración"
      else content)
      "MM/DD/YYYY" "DD/MM/YYYY"
  else if locale = "fr" then
    pyReplace
      (if content_type = "ui" then
        pyReplace (pyReplace (pyReplace (pyReplace content
          "Install" "Installer") "Setup" "Configurer") "Help" "Aide")
          "Settings" "Paramètres"
      else content)
      "MM/DD/YYYY" "DD/MM/YYYY"
  else content

/-- The `try` block of `TranslationManager.localize_content`: it begins by
reading `request.locale`, which raises `AttributeError` (the model only
declares `target_locale`), so the supported-locale check (the 400 branch)
and the localization proper below it are dead code. -/
def localizeTryBlock (r : LocalizationRequest) :
    Except PyErr LocalizationResponse :=
  match r.strAttr "locale" with
  | none => .error (.attributeError "locale")
  | some locale =>
    if ¬ supportedLanguageCodes.contains locale then
      .error (.httpException 400 ("Locale " ++ locale ++ " not supported"))
    else
      .ok { localized_content :=
              basicLocalize r.content locale r.content_type
                r.preserve_technical_terms
            locale := locale
            technical_terms_preserved := ["API", "REST", "JSON"]
            cultural_adaptations := ["Date format", "Number format"] }

/-- `TranslationManager.localize_content`: any exception escaping the
`try` block is converted into `HTTPException(500, "Localization
failed")`. -/
def localize_content_manager (r : LocalizationRequest) :
    Except PyErr LocalizationResponse :=
  match localizeTryBlock r with
  | .ok resp => .ok resp
  | .error _ => .error (.httpException 500 "Localization failed")

/-- Route `POST /localize`: the manager's `HTTPException` propagates into
the route's own `except Exception`, which re-raises 500 "Localization
failed". -/
def localize_content_route (r : LocalizationRequest) :
    RouteResult LocalizationResponse :=
  match localize_content_manager r with
  | .ok resp => .ok resp
  | .error _ => .httpError 500 "Localization failed"

/-- Claim C10: every `LocalizationRequest` makes the localize endpoint
fail with HTTP 500 "Localization failed": the `try` block dies on the
`request.locale` attribute access before any localization logic (in
particular before the 400 "Locale not supported" check) can run. -/
theorem localize_always_500 (r : LocalizationRequest) :
    localizeTryBlock r = .error (.attributeError "locale") ∧
      localize_content_route r = .httpError 500 "Localization failed" :=
  ⟨rfl, rfl⟩
